import Mathlib

/-!
Verification development for the snapshot generation and rotation subsystem
of a small content-managed landing-page backend (`src/index.js`).

The relevant JavaScript is embedded shallowly:

* `pool_games`, `game_snapshots` and `site_settings` rows become structures;
  the database is a record of three lists.
* `Math.random()`-driven choices are modelled by an oracle `rand : Nat → Nat`;
  at step `k` on a list of length `len` the picked index is `rand k % len`,
  which ranges over exactly the indices `Math.floor(Math.random()*len)` can
  produce.
* `NOW()` is a single integer timestamp (seconds): inside one Postgres
  transaction every call of `NOW()` yields the transaction start time, so the
  whole of `generateSnapshot` sees one value.
* Failure of a statement inside the `BEGIN … COMMIT` block is modelled by an
  oracle `failAt : Option Nat` naming the first failing statement (index
  `ops.length` denotes the `COMMIT` itself; larger indices or `none` mean the
  transaction commits).  A failed transaction is rolled back, restoring the
  database state from before `BEGIN`.
* Nullable text columns (`label`, `pola1`, `pola2`, `pola3`, `jam`) are
  `Option String`; the `percent` value fed to `clampInt` is `Option Int`,
  `none` standing for a value on which `Number.parseInt` yields `NaN`.
-/

/-- A row of the `pool_games` table (a candidate catalog item). -/
structure PoolEntry where
  id : Nat
  provider : String
  title : String
  image_url : String
  label : Option String
  pola1 : Option String
  pola2 : Option String
  pola3 : Option String
  jam : Option String
  percent : Option Int
  is_hot : Bool
  is_new : Bool
  enabled : Bool
  updated_at : Int
deriving DecidableEq

/-- A row of the `game_snapshots` table (an immutable copy of a pool entry
plus a creation timestamp). -/
structure SnapshotEntry where
  provider : String
  title : String
  image_url : String
  label : String
  pola1 : String
  pola2 : String
  pola3 : String
  jam : String
  percent : Int
  is_hot : Bool
  is_new : Bool
  created_at : Int
deriving DecidableEq

/-- The database state visible to the snapshot subsystem. -/
structure Db where
  pool_games : List PoolEntry
  game_snapshots : List SnapshotEntry
  site_settings : List (String × String)
deriving DecidableEq

/-- `clampInt(n, min, max, fallback)` from `src/index.js`:
`Number.parseInt` giving `NaN` is modelled by `none` and returns the
fallback, otherwise `Math.max(min, Math.min(max, x))`. -/
def clampInt (n : Option Int) (lo hi fallback : Int) : Int :=
  match n with
  | none => fallback
  | some x => max lo (min hi x)

/-- `String(n).padStart(2, "0")` for a natural number. -/
def padStart2 (s : String) : String :=
  if s.length = 0 then "00" else if s.length = 1 then "0" ++ s else s

def indoDays : List String :=
  ["Minggu", "Senin", "Selasa", "Rabu", "Kamis", "Jumat", "Sabtu"]

def indoMonths : List String :=
  ["Januari", "Februari", "Maret", "April", "Mei", "Juni", "Juli",
   "Agustus", "September", "Oktober", "November", "Desember"]

/-- The components of the current date that `nowIdDateIndo` reads from
`new Date()`. -/
structure DateParts where
  dayOfWeek : Nat
  day : Nat
  month : Nat
  year : Nat
deriving DecidableEq

/-- `nowIdDateIndo()` from `src/index.js`: formats the current date as, for
example, `Selasa, 24 Februari 2026`. -/
def nowIdDateIndo (d : DateParts) : String :=
  indoDays.getD d.dayOfWeek "" ++ ", " ++ padStart2 (toString d.day) ++ " "
    ++ indoMonths.getD d.month "" ++ " " ++ toString d.year

/-- Loop body of `pickRandom`: repeatedly splice a random index out of the
remaining list until `n` entries are taken or the list is exhausted.  `rand`
supplies the random choice of each step. -/
def pickRandomGo (rand : Nat → Nat) : List α → Nat → Nat → List α
  | [], _, _ => []
  | _ :: _, 0, _ => []
  | x :: xs, n + 1, step =>
    let l := x :: xs
    let i : Fin l.length := ⟨rand step % l.length, Nat.mod_lt _ (Nat.succ_pos _)⟩
    l.get i :: pickRandomGo rand (l.eraseIdx i.val) n (step + 1)

/-- `pickRandom(arr, n)` from `src/index.js`. -/
def pickRandom (arr : List α) (n : Nat) (rand : Nat → Nat) : List α :=
  pickRandomGo rand arr n 0

/-- `setSetting(key, value)`: upsert into `site_settings`. -/
def setSetting (s : List (String × String)) (key value : String) :
    List (String × String) :=
  if s.any fun p => p.1 == key then
    s.map fun p => if p.1 == key then (p.1, value) else p
  else
    s ++ [(key, value)]

/-- Read a settings value back (`SELECT value FROM site_settings WHERE key=$1`). -/
def getSettingValue (s : List (String × String)) (key : String) : Option String :=
  (s.find? fun p => p.1 == key).map fun p => p.2

/-- Insert `x` into a list that is sorted descending by `key`, keeping it
sorted. -/
def insertDescBy (key : α → Int) (x : α) : List α → List α
  | [] => [x]
  | y :: ys => if key y < key x then x :: y :: ys else y :: insertDescBy key x ys

/-- Sort a list descending by `key`: the model of SQL `ORDER BY key DESC`. -/
def sortDescBy (key : α → Int) : List α → List α
  | [] => []
  | x :: xs => insertDescBy key x (sortDescBy key xs)

/-- `SELECT * FROM pool_games WHERE enabled=true ORDER BY updated_at DESC`. -/
def listEnabled (db : Db) : List PoolEntry :=
  sortDescBy (·.updated_at) (db.pool_games.filter (·.enabled))

/-- The full field copy of a pool entry written by one
`INSERT INTO game_snapshots … VALUES(…, NOW())` in `generateSnapshot`:
`g.x || ""` coalesces a null text column to `""`, and the percent is
`clampInt(g.percent, 0, 100, 0)`. -/
def toSnapshot (g : PoolEntry) (now : Int) : SnapshotEntry where
  provider := g.provider
  title := g.title
  image_url := g.image_url
  label := g.label.getD ""
  pola1 := g.pola1.getD ""
  pola2 := g.pola2.getD ""
  pola3 := g.pola3.getD ""
  jam := g.jam.getD ""
  percent := clampInt g.percent 0 100 0
  is_hot := g.is_hot
  is_new := g.is_new
  created_at := now

/-- Retention horizon: `INTERVAL '7 days'` in seconds. -/
def retentionSeconds : Int := 7 * 86400

/-- One SQL statement of `generateSnapshot`'s transaction. -/
inductive TxOp
  | insertSnapshot (s : SnapshotEntry)
  | putSetting (key value : String)
  | deleteOlderThan (cutoff : Int)
deriving DecidableEq

/-- Effect of one transaction statement on the database. -/
def applyOp (db : Db) : TxOp → Db
  | TxOp.insertSnapshot s => { db with game_snapshots := db.game_snapshots ++ [s] }
  | TxOp.putSetting k v => { db with site_settings := setSetting db.site_settings k v }
  | TxOp.deleteOlderThan cutoff =>
      { db with game_snapshots :=
          db.game_snapshots.filter fun s => !(s.created_at < cutoff : Bool) }

def runOps (db : Db) (ops : List TxOp) : Db := ops.foldl applyOp db

/-- Run a `BEGIN … COMMIT` block: if the failure oracle names a statement of
the block (or the `COMMIT`, index `ops.length`), the transaction aborts and
`ROLLBACK` restores the pre-transaction state (`none` result); otherwise all
statements apply. -/
def runTx (db : Db) (ops : List TxOp) (failAt : Option Nat) : Option Db :=
  match failAt with
  | none => some (runOps db ops)
  | some k => if k ≤ ops.length then none else some (runOps db ops)

/-- Result value of `generateSnapshot`:
`skipped` is `{ ok:false, reason:"no_pool" }`, `succeeded c` is
`{ ok:true, count:c }`, `failed` is `{ ok:false, error:"snapshot_failed" }`.
The function always returns such a value: storage errors inside the
transaction are caught and converted, never rethrown. -/
inductive Outcome
  | skipped
  | succeeded (count : Nat)
  | failed
deriving DecidableEq

/-- The transaction body of `generateSnapshot` for a chosen sample:
one insert per chosen entry, then the `rtp_updated_text` upsert, then the
retention delete. -/
def snapshotOps (chosen : List PoolEntry) (now : Int) (d : DateParts) : List TxOp :=
  chosen.map (fun g => TxOp.insertSnapshot (toSnapshot g now))
    ++ [TxOp.putSetting "rtp_updated_text" ("Update RTP: " ++ nowIdDateIndo d),
        TxOp.deleteOlderThan (now - retentionSeconds)]

/-- `generateSnapshot()` from `src/index.js`.  `snapshotSize` is
`SNAPSHOT_SIZE`, `rand` the random oracle, `now` the transaction timestamp,
`d` the current date, `failAt` the storage failure oracle for the
transaction. Returns the outcome together with the database state after the
call. -/
def generateSnapshot (db : Db) (snapshotSize : Nat) (rand : Nat → Nat)
    (now : Int) (d : DateParts) (failAt : Option Nat) : Outcome × Db :=
  let poolList := listEnabled db
  if poolList.length = 0 then
    (Outcome.skipped, db)
  else
    let chosen := pickRandom poolList (max 1 snapshotSize) rand
    match runTx db (snapshotOps chosen now d) failAt with
    | none => (Outcome.failed, db)
    | some db2 => (Outcome.succeeded chosen.length, db2)

/-- The first query of `GET /api/games`:
`SELECT … FROM game_snapshots WHERE created_at >= NOW() - ($1 || ' hours')::interval
ORDER BY created_at DESC LIMIT $2` with `$1 = SNAPSHOT_TTL_HOURS` and
`$2 = Math.max(1, SNAPSHOT_SIZE)`. -/
def freshQuery (db : Db) (now : Int) (ttlHours : Int) (snapshotSize : Nat) :
    List SnapshotEntry :=
  (sortDescBy (·.created_at)
      (db.game_snapshots.filter fun s => now - ttlHours * 3600 ≤ s.created_at)).take
    (max 1 snapshotSize)

/-- The fallback query of `GET /api/games`: the same select with no freshness
filter (`ORDER BY created_at DESC LIMIT $1`). -/
def fallbackQuery (db : Db) (snapshotSize : Nat) : List SnapshotEntry :=
  (sortDescBy (·.created_at) db.game_snapshots).take (max 1 snapshotSize)

/-- An HTTP response of the `GET /api/games` handler. -/
inductive Resp
  | ok (rows : List SnapshotEntry)
  | err (status : Nat) (msg : String)
deriving DecidableEq

/-- The `GET /api/games` handler from `src/index.js`.  `q1Fails` and
`q2Fails` say whether the first query and the fallback re-query throw; a
thrown storage error reaches the handler's `catch`, which answers
`500 {"error":"Failed to read games"}`.  When the first query returns no
rows the handler awaits `generateSnapshot()` (whose transaction errors are
caught inside it) and then re-queries without the freshness filter. -/
def apiGames (db : Db) (snapshotSize : Nat) (ttlHours : Int) (rand : Nat → Nat)
    (now : Int) (d : DateParts) (genFailAt : Option Nat)
    (q1Fails q2Fails : Bool) : Resp × Db :=
  if q1Fails then
    (Resp.err 500 "Failed to read games", db)
  else
    let r := freshQuery db now ttlHours snapshotSize
    if r.length = 0 then
      let res := generateSnapshot db snapshotSize rand now d genFailAt
      if q2Fails then
        (Resp.err 500 "Failed to read games", res.2)
      else
        (Resp.ok (fallbackQuery res.2 snapshotSize), res.2)
    else
      (Resp.ok r, db)

/-- Modelled external behaviour of `node-cron`: `cron.schedule` throws on a
malformed five-field cadence expression and otherwise installs the job. -/
def cronSchedule (exprValid : Bool) : Except String Unit :=
  if exprValid then Except.ok () else Except.error "Invalid cron expression"

/-- Observable result of the startup sequence. -/
structure StartupResult where
  generated : Outcome
  dbAfter : Db
  cronScheduled : Bool
  cronErrorLogged : Bool
  listening : Bool
deriving DecidableEq

/-- The `initDb().then(…)` startup block of `src/index.js`: run
`generateSnapshot()` once, then try to install the cron job inside
`try { … } catch`, logging a scheduling error instead of crashing, then call
`app.listen`. -/
def startup (db : Db) (snapshotSize : Nat) (rand : Nat → Nat) (now : Int)
    (d : DateParts) (failAt : Option Nat) (cronExprValid : Bool) : StartupResult :=
  let res := generateSnapshot db snapshotSize rand now d failAt
  match cronSchedule cronExprValid with
  | Except.ok _ =>
      { generated := res.1, dbAfter := res.2, cronScheduled := true
        cronErrorLogged := false, listening := true }
  | Except.error _ =>
      { generated := res.1, dbAfter := res.2, cronScheduled := false
        cronErrorLogged := true, listening := true }

/-! ### Helper lemmas -/

lemma getElem_cons_eraseIdx_perm :
    ∀ (l : List α) (i : Nat) (h : i < l.length), List.Perm (l[i] :: l.eraseIdx i) l := by
  intro l
  induction l with
  | nil => intro i h; exact absurd h (Nat.not_lt_zero i)
  | cons x xs ih =>
    intro i h
    cases i with
    | zero => simp [List.eraseIdx]
    | succ j =>
      have hj : j < xs.length := by simpa using h
      have h1 : List.Perm ((x :: xs)[j + 1] :: (x :: xs).eraseIdx (j + 1))
          (xs[j] :: x :: xs.eraseIdx j) := by
        simp [List.eraseIdx]
      exact h1.trans ((List.Perm.swap x (xs[j]) (xs.eraseIdx j)).trans
        ((ih j hj).cons x))

lemma pickRandomGo_length (rand : Nat → Nat) :
    ∀ (n : Nat) (a : List α) (step : Nat),
      (pickRandomGo rand a n step).length = min n a.length := by
  intro n
  induction n with
  | zero =>
    intro a step
    cases a <;> simp [pickRandomGo]
  | succ m ih =>
    intro a step
    cases a with
    | nil => simp [pickRandomGo]
    | cons x xs =>
      have hlt : rand step % (xs.length + 1) < xs.length + 1 :=
        Nat.mod_lt _ (Nat.succ_pos _)
      have herase :
          ((x :: xs).eraseIdx (rand step % (xs.length + 1))).length = xs.length := by
        rw [List.length_eraseIdx, if_pos (by simpa using hlt)]
        simp
      simp only [pickRandomGo, List.length_cons, ih, herase]
      exact (Nat.succ_min_succ m xs.length).symm

lemma pickRandomGo_subperm (rand : Nat → Nat) :
    ∀ (n : Nat) (a : List α) (step : Nat), (pickRandomGo rand a n step).Subperm a := by
  intro n
  induction n with
  | zero =>
    intro a step
    cases a <;> simp [pickRandomGo, List.nil_subperm]
  | succ m ih =>
    intro a step
    cases a with
    | nil => simp [pickRandomGo, List.nil_subperm]
    | cons x xs =>
      have hlt : rand step % (x :: xs).length < (x :: xs).length :=
        Nat.mod_lt _ (Nat.succ_pos _)
      have step1 : (pickRandomGo rand ((x :: xs).eraseIdx (rand step % (x :: xs).length))
          m (step + 1)).Subperm ((x :: xs).eraseIdx (rand step % (x :: xs).length)) := ih _ _
      have step2 := (List.subperm_cons ((x :: xs)[rand step % (x :: xs).length])).2 step1
      have step3 := (getElem_cons_eraseIdx_perm (x :: xs) _ hlt).subperm
      simpa [pickRandomGo] using step2.trans step3

lemma pickRandom_length (arr : List α) (n : Nat) (rand : Nat → Nat) :
    (pickRandom arr n rand).length = min n arr.length :=
  pickRandomGo_length rand n arr 0

lemma pickRandom_subperm (arr : List α) (n : Nat) (rand : Nat → Nat) :
    (pickRandom arr n rand).Subperm arr :=
  pickRandomGo_subperm rand n arr 0

lemma pickRandom_mem {arr : List α} {n : Nat} {rand : Nat → Nat} {x : α}
    (h : x ∈ pickRandom arr n rand) : x ∈ arr :=
  (pickRandom_subperm arr n rand).subset h

lemma pickRandom_nodup {arr : List α} (n : Nat) (rand : Nat → Nat) (h : arr.Nodup) :
    (pickRandom arr n rand).Nodup := by
  obtain ⟨l, hperm, hsub⟩ := pickRandom_subperm arr n rand
  exact hperm.nodup_iff.1 (hsub.nodup h)

lemma insertDescBy_perm (key : α → Int) (x : α) :
    ∀ l : List α, List.Perm (insertDescBy key x l) (x :: l) := by
  intro l
  induction l with
  | nil => simp [insertDescBy]
  | cons y ys ih =>
    by_cases h : key y < key x
    · simp [insertDescBy, h]
    · simpa [insertDescBy, h] using (ih.cons y).trans (List.Perm.swap x y ys)

lemma sortDescBy_perm (key : α → Int) :
    ∀ l : List α, List.Perm (sortDescBy key l) l := by
  intro l
  induction l with
  | nil => simp [sortDescBy]
  | cons x xs ih =>
    exact (insertDescBy_perm key x (sortDescBy key xs)).trans (ih.cons x)

lemma insertDescBy_pairwise (key : α → Int) (x : α) {l : List α}
    (h : l.Pairwise fun a b => key b ≤ key a) :
    (insertDescBy key x l).Pairwise fun a b => key b ≤ key a := by
  induction l with
  | nil => simp [insertDescBy]
  | cons y ys ih =>
    rcases List.pairwise_cons.1 h with ⟨hy, hys⟩
    by_cases hlt : key y < key x
    · rw [show insertDescBy key x (y :: ys) = x :: y :: ys from by simp [insertDescBy, hlt]]
      refine List.pairwise_cons.2 ⟨?_, h⟩
      intro z hz
      rcases List.mem_cons.1 hz with rfl | hz
      · exact le_of_lt hlt
      · exact le_trans (hy z hz) (le_of_lt hlt)
    · rw [show insertDescBy key x (y :: ys) = y :: insertDescBy key x ys from by
        simp [insertDescBy, hlt]]
      refine List.pairwise_cons.2 ⟨?_, ih hys⟩
      intro z hz
      rcases List.mem_cons.1 ((insertDescBy_perm key x ys).mem_iff.1 hz) with rfl | h1
      · exact le_of_not_lt hlt
      · exact hy z h1

lemma sortDescBy_pairwise (key : α → Int) :
    ∀ l : List α, (sortDescBy key l).Pairwise fun a b => key b ≤ key a := by
  intro l
  induction l with
  | nil => simp [sortDescBy]
  | cons x xs ih => exact insertDescBy_pairwise key x ih

lemma listEnabled_length (db : Db) :
    (listEnabled db).length = (db.pool_games.filter (·.enabled)).length :=
  (sortDescBy_perm _ _).length_eq

lemma listEnabled_mem {db : Db} {g : PoolEntry} (h : g ∈ listEnabled db) :
    g ∈ db.pool_games ∧ g.enabled = true := by
  have := (sortDescBy_perm (·.updated_at) (db.pool_games.filter (·.enabled))).mem_iff.1 h
  exact List.mem_filter.1 this

lemma listEnabled_nodup {db : Db} (h : db.pool_games.Nodup) : (listEnabled db).Nodup := by
  unfold listEnabled
  exact (sortDescBy_perm _ _).nodup_iff.2 (h.filter _)

lemma listEnabled_eq_nil {db : Db} (h : db.pool_games.filter (·.enabled) = []) :
    listEnabled db = [] := by
  unfold listEnabled
  rw [h]
  rfl

lemma getSettingValue_map_upsert (k v : String) :
    ∀ s : List (String × String), s.any (fun p => p.1 == k) = true →
      getSettingValue (s.map fun p => if p.1 == k then (p.1, v) else p) k = some v := by
  intro s
  induction s with
  | nil => intro h; simp at h
  | cons p ps ih =>
    intro h
    by_cases hp : (p.1 == k) = true
    · unfold getSettingValue
      simp only [List.map_cons, if_pos hp]
      rw [List.find?_cons_of_pos _ (by simpa using hp)]
      simp
    · unfold getSettingValue at ih ⊢
      simp only [List.map_cons, if_neg hp]
      rw [List.find?_cons_of_neg _ (by simpa using hp)]
      apply ih
      simpa [List.any_cons, hp] using h

lemma getSettingValue_setSetting (s : List (String × String)) (k v : String) :
    getSettingValue (setSetting s k v) k = some v := by
  unfold setSetting
  by_cases h : s.any (fun p => p.1 == k) = true
  · rw [if_pos h]
    exact getSettingValue_map_upsert k v s h
  · rw [if_neg h]
    unfold getSettingValue
    rw [List.find?_append]
    have hnone : s.find? (fun p => p.1 == k) = none := by
      rw [List.find?_eq_none]
      intro x hx hxk
      exact h (List.any_eq_true.2 ⟨x, hx, hxk⟩)
    rw [hnone]
    simp [List.find?]

lemma runOps_append (db : Db) (l₁ l₂ : List TxOp) :
    runOps db (l₁ ++ l₂) = runOps (runOps db l₁) l₂ :=
  List.foldl_append applyOp db l₁ l₂

lemma runOps_inserts (now : Int) :
    ∀ (chosen : List PoolEntry) (db : Db),
      runOps db (chosen.map fun g => TxOp.insertSnapshot (toSnapshot g now)) =
        { db with game_snapshots := db.game_snapshots ++ chosen.map (toSnapshot · now) } := by
  intro chosen
  induction chosen with
  | nil => intro db; simp [runOps]
  | cons g gs ih =>
    intro db
    have hstep : runOps db ((g :: gs).map fun g => TxOp.insertSnapshot (toSnapshot g now)) =
        runOps { db with game_snapshots := db.game_snapshots ++ [toSnapshot g now] }
          (gs.map fun g => TxOp.insertSnapshot (toSnapshot g now)) := rfl
    rw [hstep, ih]
    simp

lemma snapshotOps_length (chosen : List PoolEntry) (now : Int) (d : DateParts) :
    (snapshotOps chosen now d).length = chosen.length + 2 := by
  simp [snapshotOps]

lemma runOps_snapshotOps (db : Db) (chosen : List PoolEntry) (now : Int) (d : DateParts) :
    runOps db (snapshotOps chosen now d) =
      { db with
        game_snapshots := (db.game_snapshots ++ chosen.map (toSnapshot · now)).filter
          fun s => !(s.created_at < now - retentionSeconds : Bool)
        site_settings := setSetting db.site_settings "rtp_updated_text"
          ("Update RTP: " ++ nowIdDateIndo d) } := by
  unfold snapshotOps
  rw [runOps_append, runOps_inserts]
  simp [runOps, applyOp]

lemma runTx_some {db db2 : Db} {ops : List TxOp} {failAt : Option Nat}
    (h : runTx db ops failAt = some db2) : db2 = runOps db ops := by
  cases failAt with
  | none =>
    simp only [runTx] at h
    exact (Option.some_inj.1 h).symm
  | some k =>
    by_cases hk : k ≤ ops.length
    · simp only [runTx, if_pos hk] at h
      exact Option.noConfusion h
    · simp only [runTx, if_neg hk] at h
      exact (Option.some_inj.1 h).symm

lemma generateSnapshot_skipped_of_empty (db : Db) (size : Nat) (rand : Nat → Nat)
    (now : Int) (d : DateParts) (failAt : Option Nat)
    (h : db.pool_games.filter (·.enabled) = []) :
    generateSnapshot db size rand now d failAt = (Outcome.skipped, db) := by
  have h0 : (listEnabled db).length = 0 := by
    rw [listEnabled_eq_nil h]
    rfl
  simp [generateSnapshot, h0]

lemma generateSnapshot_commit (db : Db) (size : Nat) (rand : Nat → Nat)
    (now : Int) (d : DateParts) (hne : (listEnabled db).length ≠ 0) :
    generateSnapshot db size rand now d none =
      (Outcome.succeeded (pickRandom (listEnabled db) (max 1 size) rand).length,
       runOps db (snapshotOps (pickRandom (listEnabled db) (max 1 size) rand) now d)) := by
  simp [generateSnapshot, runTx, hne]

lemma generateSnapshot_rollback (db : Db) (size : Nat) (rand : Nat → Nat)
    (now : Int) (d : DateParts) (k : Nat) (hne : (listEnabled db).length ≠ 0)
    (hk : k ≤ (pickRandom (listEnabled db) (max 1 size) rand).length + 2) :
    generateSnapshot db size rand now d (some k) = (Outcome.failed, db) := by
  have hk2 : k ≤ (snapshotOps (pickRandom (listEnabled db) (max 1 size) rand) now d).length := by
    rw [snapshotOps_length]
    exact hk
  simp [generateSnapshot, runTx, hne, hk2]

lemma generateSnapshot_succeeded_inv {db db2 : Db} {size : Nat} {rand : Nat → Nat}
    {now : Int} {d : DateParts} {failAt : Option Nat} {c : Nat}
    (h : generateSnapshot db size rand now d failAt = (Outcome.succeeded c, db2)) :
    c = (pickRandom (listEnabled db) (max 1 size) rand).length ∧
      db2 = runOps db (snapshotOps (pickRandom (listEnabled db) (max 1 size) rand) now d) := by
  have h' :
      (if (listEnabled db).length = 0 then (Outcome.skipped, db)
       else
        match runTx db
            (snapshotOps (pickRandom (listEnabled db) (max 1 size) rand) now d) failAt with
        | none => (Outcome.failed, db)
        | some db3 =>
            (Outcome.succeeded (pickRandom (listEnabled db) (max 1 size) rand).length, db3)) =
      (Outcome.succeeded c, db2) := h
  by_cases h0 : (listEnabled db).length = 0
  · rw [if_pos h0] at h'
    simp at h'
  · rw [if_neg h0] at h'
    rcases htx : runTx db
        (snapshotOps (pickRandom (listEnabled db) (max 1 size) rand) now d) failAt with
      _ | db3
    · rw [htx] at h'
      simp at h'
    · rw [htx] at h'
      simp only [Prod.mk.injEq, Outcome.succeeded.injEq] at h'
      obtain ⟨h1, h2⟩ := h'
      exact ⟨h1.symm, h2 ▸ runTx_some htx⟩

lemma clampInt_bounds (n : Option Int) :
    0 ≤ clampInt n 0 100 0 ∧ clampInt n 0 100 0 ≤ 100 := by
  cases n with
  | none => simp [clampInt]
  | some x =>
    constructor
    · exact le_max_left 0 _
    · exact max_le (by norm_num) (min_le_left 100 x)

/-! ### Concrete fixtures used by witnesses -/

/-- Enabled pool entry with an out-of-range percent and null text fields. -/
def gA : PoolEntry :=
  { id := 1
    provider := "pragmatic"
    title := "Gates"
    image_url := "https://cdn.example/a.png"
    label := none
    pola1 := some "turbo"
    pola2 := none
    pola3 := some ""
    jam := none
    percent := some 250
    is_hot := true
    is_new := false
    enabled := true
    updated_at := 5 }

/-- Enabled pool entry whose percent parses to `NaN`. -/
def gB : PoolEntry :=
  { gA with
    id := 2
    title := "Olympus"
    percent := none
    updated_at := 9 }

/-- Disabled pool entry. -/
def gC : PoolEntry :=
  { gA with
    id := 3
    title := "Hidden"
    percent := some (-4)
    enabled := false }

/-- Two enabled entries and one disabled entry, empty snapshot store. -/
def dbABC : Db :=
  { pool_games := [gA, gB, gC], game_snapshots := [], site_settings := [] }

/-- Only a disabled entry: the enabled pool is empty. -/
def dbNoPool : Db :=
  { pool_games := [gC], game_snapshots := [], site_settings := [] }

/-- Empty enabled pool but one snapshot row that is older than the freshness
window and younger than the retention horizon (at read time 1000000). -/
def dbStaleRows : Db :=
  { pool_games := [gC], game_snapshots := [toSnapshot gA 500000], site_settings := [] }

def rand0 : Nat → Nat := fun _ => 0

def rand1 : Nat → Nat := fun k => k + 1

def dparts0 : DateParts := { dayOfWeek := 2, day := 24, month := 1, year := 2026 }

/-! ### Claim theorems -/

/-- C4: for every state in which the enabled pool is empty,
`generateSnapshot` returns the skipped outcome and performs no write at
all — the snapshot store and the settings store are returned exactly as
they were. -/
theorem generate_skips_on_empty_pool (db : Db) (size : Nat) (rand : Nat → Nat)
    (now : Int) (d : DateParts) (failAt : Option Nat)
    (h : db.pool_games.filter (·.enabled) = []) :
    generateSnapshot db size rand now d failAt = (Outcome.skipped, db) :=
  generateSnapshot_skipped_of_empty db size rand now d failAt h

/-- Witness for C4: a pool holding only a disabled entry is skipped and the
state comes back untouched. -/
theorem generate_skips_on_empty_pool_witness :
    dbNoPool.pool_games.filter (·.enabled) = [] ∧
      generateSnapshot dbNoPool 12 rand0 1000000 dparts0 none =
        (Outcome.skipped, dbNoPool) :=
  ⟨by decide,
   generate_skips_on_empty_pool dbNoPool 12 rand0 1000000 dparts0 none (by decide)⟩

/-- C3 counterexample: on the input sequence `[0, 0]` (pool size 2) with
requested size 2, `pickRandom` returns `[0, 0]`: the input entry `0`
appears twice in the result, so the no-entry-twice clause fails as stated
for input sequences holding repeated entries. -/
theorem pickRandom_repeated_entry_counterexample :
    pickRandom ([0, 0] : List Nat) 2 rand0 = [0, 0] ∧
      (pickRandom ([0, 0] : List Nat) 2 rand0).count 0 = 2 ∧
      ¬ (pickRandom ([0, 0] : List Nat) 2 rand0).Nodup := by
  decide

/-- C3 (amended): for every input pool of size P and requested size N ≥ 1,
`pickRandom` returns exactly `min N P` entries, each drawn from the input
pool, and never splices the same input position twice — the result is a
sub-permutation of the input — so on a pool of pairwise distinct entries no
entry appears twice in the result. -/
theorem pickRandom_sample_contract {α : Type} (pool : List α) (n : Nat)
    (rand : Nat → Nat) (_hn : 1 ≤ n) :
    (pickRandom pool n rand).length = min n pool.length ∧
      (∀ x ∈ pickRandom pool n rand, x ∈ pool) ∧
      (pickRandom pool n rand).Subperm pool ∧
      (pool.Nodup → (pickRandom pool n rand).Nodup) :=
  ⟨pickRandom_length pool n rand,
   fun _ hx => pickRandom_mem hx,
   pickRandom_subperm pool n rand,
   fun hnd => pickRandom_nodup n rand hnd⟩

/-- Witness for the amended C3 on the pool `[10, 20, 30]` with size 2. -/
theorem pickRandom_sample_contract_witness :
    (pickRandom ([10, 20, 30] : List Nat) 2 rand1).length =
        min 2 ([10, 20, 30] : List Nat).length ∧
      (pickRandom ([10, 20, 30] : List Nat) 2 rand1).Subperm [10, 20, 30] ∧
      (pickRandom ([10, 20, 30] : List Nat) 2 rand1).Nodup :=
  have h := pickRandom_sample_contract ([10, 20, 30] : List Nat) 2 rand1 (by decide)
  ⟨h.1, h.2.2.1, h.2.2.2 (by decide)⟩

/-- C2: if any statement of the generation transaction — a batch insert, the
label upsert, the retention delete, or the commit itself — fails, the call
returns the failed outcome with the database exactly as before the call: no
partial batch, no mismatched label, and no escaping exception (the result
is an ordinary `Outcome` value, as for every input of `generateSnapshot`). -/
theorem generate_tx_failure_rolls_back (db : Db) (size : Nat) (rand : Nat → Nat)
    (now : Int) (d : DateParts) (k : Nat)
    (hne : db.pool_games.filter (·.enabled) ≠ [])
    (hk : k ≤ (pickRandom (listEnabled db) (max 1 size) rand).length + 2) :
    generateSnapshot db size rand now d (some k) = (Outcome.failed, db) := by
  apply generateSnapshot_rollback db size rand now d k ?_ hk
  intro h0
  exact hne (by rwa [listEnabled_length, List.length_eq_zero] at h0)

/-- Witness for C2: the very first insert of the transaction fails and the
call returns `failed` with the original state. -/
theorem generate_tx_failure_rolls_back_witness :
    dbABC.pool_games.filter (·.enabled) ≠ [] ∧
      0 ≤ (pickRandom (listEnabled dbABC) (max 1 12) rand0).length + 2 ∧
      generateSnapshot dbABC 12 rand0 1000000 dparts0 (some 0) =
        (Outcome.failed, dbABC) :=
  ⟨by decide, by decide,
   generate_tx_failure_rolls_back dbABC 12 rand0 1000000 dparts0 0 (by decide) (by decide)⟩

/-- C1: on a non-empty enabled pool, with the configured batch size at
least 1, a committing `generateSnapshot` call returns the succeeded outcome
whose count is `min size enabledCount`; the store afterwards holds the
retained old rows plus exactly that many new rows — full field copies of
pool entries sampled without reusing a position (pairwise distinct whenever
the pool rows are), all carrying the single creation timestamp `now` — and
the `rtp_updated_text` setting holds the freshly formatted current-date
label `Update RTP: <current date>`. -/
theorem generate_full_batch_on_nonempty_pool (db : Db) (size : Nat)
    (rand : Nat → Nat) (now : Int) (d : DateParts) (hsize : 1 ≤ size)
    (hne : db.pool_games.filter (·.enabled) ≠ []) :
    generateSnapshot db size rand now d none =
      (Outcome.succeeded (min size (db.pool_games.filter (·.enabled)).length),
       runOps db (snapshotOps (pickRandom (listEnabled db) size rand) now d)) ∧
    (pickRandom (listEnabled db) size rand).length =
      min size (db.pool_games.filter (·.enabled)).length ∧
    (pickRandom (listEnabled db) size rand).Subperm (listEnabled db) ∧
    (db.pool_games.Nodup → (pickRandom (listEnabled db) size rand).Nodup) ∧
    (∀ s ∈ (pickRandom (listEnabled db) size rand).map (toSnapshot · now),
       s.created_at = now) ∧
    (runOps db (snapshotOps (pickRandom (listEnabled db) size rand) now d)).game_snapshots =
      db.game_snapshots.filter
          (fun s => !(s.created_at < now - retentionSeconds : Bool))
        ++ (pickRandom (listEnabled db) size rand).map (toSnapshot · now) ∧
    getSettingValue
      (runOps db (snapshotOps (pickRandom (listEnabled db) size rand) now d)).site_settings
      "rtp_updated_text" = some ("Update RTP: " ++ nowIdDateIndo d) := by
  have hmax : max 1 size = size := Nat.max_eq_right hsize
  have hne' : (listEnabled db).length ≠ 0 := by
    intro h0
    exact hne (by rwa [listEnabled_length, List.length_eq_zero] at h0)
  have hcommit := generateSnapshot_commit db size rand now d hne'
  rw [hmax] at hcommit
  have hlen : (pickRandom (listEnabled db) size rand).length =
      min size (db.pool_games.filter (·.enabled)).length := by
    rw [pickRandom_length, listEnabled_length]
  refine ⟨by rw [hcommit, hlen], hlen, pickRandom_subperm _ _ _, ?_, ?_, ?_, ?_⟩
  · exact fun hnd => pickRandom_nodup size rand (listEnabled_nodup hnd)
  · intro s hs
    rcases List.mem_map.1 hs with ⟨g, -, rfl⟩
    rfl
  · rw [runOps_snapshotOps]
    show ((db.game_snapshots ++ _).filter _) = _
    rw [List.filter_append]
    congr 1
    apply List.filter_eq_self.2
    intro a ha
    rcases List.mem_map.1 ha with ⟨g, -, rfl⟩
    show (!(((toSnapshot g now).created_at < now - retentionSeconds : Bool))) = true
    have : ¬ ((toSnapshot g now).created_at < now - retentionSeconds) := by
      show ¬ (now < now - retentionSeconds)
      unfold retentionSeconds
      omega
    simpa using this
  · rw [runOps_snapshotOps]
    exact getSettingValue_setSetting db.site_settings _ _

/-- Witness for C1 at a concrete two-entry enabled pool and batch size 12:
the call commits a batch of `min 12 2 = 2` rows and publishes the date
label. -/
theorem generate_full_batch_on_nonempty_pool_witness :
    1 ≤ 12 ∧ dbABC.pool_games.filter (·.enabled) ≠ [] ∧
      generateSnapshot dbABC 12 rand0 1000000 dparts0 none =
        (Outcome.succeeded (min 12 (dbABC.pool_games.filter (·.enabled)).length),
         runOps dbABC (snapshotOps (pickRandom (listEnabled dbABC) 12 rand0) 1000000 dparts0)) ∧
      getSettingValue
        (runOps dbABC
          (snapshotOps (pickRandom (listEnabled dbABC) 12 rand0) 1000000 dparts0)).site_settings
        "rtp_updated_text" = some ("Update RTP: " ++ nowIdDateIndo dparts0) :=
  have h := generate_full_batch_on_nonempty_pool dbABC 12 rand0 1000000 dparts0
    (by decide) (by decide)
  ⟨by decide, by decide, h.1, h.2.2.2.2.2.2⟩

/-- C7: after a successful `generateSnapshot` call no snapshot row whose
creation time is older than the retention horizon (7 days before the
transaction timestamp) remains in the store. -/
theorem generate_retention_after_success (db : Db) (size : Nat)
    (rand : Nat → Nat) (now : Int) (d : DateParts) (failAt : Option Nat)
    (c : Nat) (db2 : Db)
    (h : generateSnapshot db size rand now d failAt = (Outcome.succeeded c, db2)) :
    ∀ s ∈ db2.game_snapshots, ¬ s.created_at < now - retentionSeconds := by
  obtain ⟨-, hdb2⟩ := generateSnapshot_succeeded_inv h
  rw [hdb2, runOps_snapshotOps]
  intro s hs
  have h2 := (List.mem_filter.1 hs).2
  simpa using h2

/-- Witness for C7: a concrete successful generation, checked row by row
against the retention cutoff. -/
theorem generate_retention_after_success_witness :
    generateSnapshot dbABC 2 rand0 1000000 dparts0 none =
      (Outcome.succeeded 2, (generateSnapshot dbABC 2 rand0 1000000 dparts0 none).2) ∧
    ((generateSnapshot dbABC 2 rand0 1000000 dparts0 none).2.game_snapshots.all
      fun s => !(s.created_at < 1000000 - retentionSeconds : Bool)) = true := by
  refine ⟨by decide, ?_⟩
  have h := generate_retention_after_success dbABC 2 rand0 1000000 dparts0 none 2
    (generateSnapshot dbABC 2 rand0 1000000 dparts0 none).2 (by decide)
  rw [List.all_eq_true]
  intro s hs
  simpa using h s hs

/-- C10: every snapshot row added by a successful generation is the full
field copy of some enabled pool entry taken at the shared timestamp: its
percent is clamped into `[0, 100]` — with 0 when the source percent parses
to `NaN` — and its nullable text fields (`label`, `pola1`, `pola2`,
`pola3`, `jam`) are coalesced to the empty string, for every source entry,
including entries whose percent lies outside 0–100. -/
theorem generate_rows_clamped_copies (db : Db) (size : Nat) (rand : Nat → Nat)
    (now : Int) (d : DateParts) (failAt : Option Nat) (c : Nat) (db2 : Db)
    (h : generateSnapshot db size rand now d failAt = (Outcome.succeeded c, db2)) :
    ∀ s ∈ db2.game_snapshots, s ∈ db.game_snapshots ∨
      ∃ g, g ∈ db.pool_games ∧ g.enabled = true ∧ s = toSnapshot g now ∧
        0 ≤ s.percent ∧ s.percent ≤ 100 ∧ (g.percent = none → s.percent = 0) ∧
        s.label = g.label.getD "" ∧ s.pola1 = g.pola1.getD "" ∧
        s.pola2 = g.pola2.getD "" ∧ s.pola3 = g.pola3.getD "" ∧
        s.jam = g.jam.getD "" ∧ s.created_at = now := by
  obtain ⟨-, hdb2⟩ := generateSnapshot_succeeded_inv h
  rw [hdb2, runOps_snapshotOps]
  intro s hs
  have hs1 := (List.mem_filter.1 hs).1
  rcases List.mem_append.1 hs1 with hold | hnew
  · exact Or.inl hold
  · right
    rcases List.mem_map.1 hnew with ⟨g, hg, rfl⟩
    have hgl := listEnabled_mem (pickRandom_mem hg)
    refine ⟨g, hgl.1, hgl.2, rfl, (clampInt_bounds g.percent).1,
      (clampInt_bounds g.percent).2, ?_, rfl, rfl, rfl, rfl, rfl, rfl⟩
    intro hp
    show clampInt g.percent 0 100 0 = 0
    rw [hp]
    rfl

/-- Witness for C10: in a concrete successful generation, the copy of the
entry whose percent is 250 is present, is new, and carries a percent inside
`[0, 100]`. -/
theorem generate_rows_clamped_copies_witness :
    toSnapshot gA 1000000 ∈
        (generateSnapshot dbABC 2 rand0 1000000 dparts0 none).2.game_snapshots ∧
      0 ≤ (toSnapshot gA 1000000).percent ∧ (toSnapshot gA 1000000).percent ≤ 100 := by
  have h := generate_rows_clamped_copies dbABC 2 rand0 1000000 dparts0 none 2
    (generateSnapshot dbABC 2 rand0 1000000 dparts0 none).2 (by decide)
  have hmem : toSnapshot gA 1000000 ∈
      (generateSnapshot dbABC 2 rand0 1000000 dparts0 none).2.game_snapshots := by decide
  rcases h _ hmem with hold | ⟨g, -, -, -, h0, h100, -⟩
  · exact absurd hold (by decide)
  · exact ⟨hmem, h0, h100⟩

/-- C5: the games endpoint first runs the freshness-window query (most
recent first, limited to the batch size) and returns a non-empty result
as-is; when that query is empty it runs exactly one generation — the
response state is the state after a single `generateSnapshot` — then
answers the re-query without freshness filter over that state, as a normal
(never error) response, which is the empty list when the enabled pool and
the snapshot store are both empty. -/
theorem apiGames_read_path (db : Db) (size : Nat) (ttl : Int)
    (rand : Nat → Nat) (now : Int) (d : DateParts) (genFailAt : Option Nat) :
    (freshQuery db now ttl size ≠ [] →
      apiGames db size ttl rand now d genFailAt false false =
        (Resp.ok (freshQuery db now ttl size), db)) ∧
    (freshQuery db now ttl size = [] →
      apiGames db size ttl rand now d genFailAt false false =
        (Resp.ok (fallbackQuery (generateSnapshot db size rand now d genFailAt).2 size),
         (generateSnapshot db size rand now d genFailAt).2)) ∧
    (freshQuery db now ttl size = [] → db.pool_games.filter (·.enabled) = [] →
      apiGames db size ttl rand now d genFailAt false false =
        (Resp.ok (fallbackQuery db size), db)) ∧
    (freshQuery db now ttl size = [] → db.pool_games.filter (·.enabled) = [] →
      db.game_snapshots = [] →
      apiGames db size ttl rand now d genFailAt false false = (Resp.ok [], db)) := by
  refine ⟨?_, ?_, ?_, ?_⟩
  · intro hne
    have h0 : ¬ (freshQuery db now ttl size).length = 0 :=
      fun h => hne (List.length_eq_zero.1 h)
    simp [apiGames, h0]
  · intro hemp
    have h0 : (freshQuery db now ttl size).length = 0 := by rw [hemp]; rfl
    simp [apiGames, h0]
  · intro hemp hpool
    have h0 : (freshQuery db now ttl size).length = 0 := by rw [hemp]; rfl
    have hskip := generateSnapshot_skipped_of_empty db size rand now d genFailAt hpool
    simp [apiGames, h0, hskip]
  · intro hemp hpool hsnap
    have h0 : (freshQuery db now ttl size).length = 0 := by rw [hemp]; rfl
    have hskip := generateSnapshot_skipped_of_empty db size rand now d genFailAt hpool
    simp [apiGames, h0, hskip, fallbackQuery, hsnap, sortDescBy]

/-- Witness for C5: the empty-store, empty-pool case answers the empty
list, not an error. -/
theorem apiGames_read_path_witness :
    freshQuery dbNoPool 1000000 2 12 = [] ∧
      dbNoPool.pool_games.filter (·.enabled) = [] ∧
      dbNoPool.game_snapshots = [] ∧
      apiGames dbNoPool 12 2 rand0 1000000 dparts0 none false false =
        (Resp.ok [], dbNoPool) :=
  ⟨by decide, by decide, rfl,
   (apiGames_read_path dbNoPool 12 2 rand0 1000000 dparts0 none).2.2.2
     (by decide) (by decide) rfl⟩

/-- C6 counterexample: on an empty store and pool, a storage failure of the
fallback re-query makes the endpoint answer the 500 error response
`{"error":"Failed to read games"}` — not an empty result as the claim
states. -/
theorem apiGames_requery_failure_counterexample :
    apiGames dbNoPool 12 2 rand0 1000000 dparts0 none false true =
      (Resp.err 500 "Failed to read games", dbNoPool) ∧
      (apiGames dbNoPool 12 2 rand0 1000000 dparts0 none false true).1 ≠
        Resp.ok [] := by
  decide

/-- C6 (amended): a storage failure inside the Generator's transaction on
the fallback path degrades gracefully — the endpoint still answers the
fallback re-query result over the rolled-back state (the empty list when
the store is empty) — but a failure of the fallback re-query itself is
answered with the 500 error response, not with an empty result. -/
theorem apiGames_fallback_failure_behaviour (db : Db) (size : Nat) (ttl : Int)
    (rand : Nat → Nat) (now : Int) (d : DateParts) (k : Nat)
    (hfresh : freshQuery db now ttl size = [])
    (hne : db.pool_games.filter (·.enabled) ≠ [])
    (hk : k ≤ (pickRandom (listEnabled db) (max 1 size) rand).length + 2) :
    apiGames db size ttl rand now d (some k) false false =
      (Resp.ok (fallbackQuery db size), db) ∧
    apiGames db size ttl rand now d (some k) false true =
      (Resp.err 500 "Failed to read games", db) := by
  have h0 : (freshQuery db now ttl size).length = 0 := by rw [hfresh]; rfl
  have hne' : (listEnabled db).length ≠ 0 := by
    intro hz
    exact hne (by rwa [listEnabled_length, List.length_eq_zero] at hz)
  have hfail := generateSnapshot_rollback db size rand now d k hne' hk
  constructor <;> simp [apiGames, h0, hfail]

/-- Witness for the amended C6: generation fails in its first insert; the
endpoint answers the (empty) re-query result when the re-query works and
the 500 error when it does not. -/
theorem apiGames_fallback_failure_behaviour_witness :
    freshQuery dbABC 1000000 2 12 = [] ∧
      dbABC.pool_games.filter (·.enabled) ≠ [] ∧
      apiGames dbABC 12 2 rand0 1000000 dparts0 (some 0) false false =
        (Resp.ok (fallbackQuery dbABC 12), dbABC) ∧
      apiGames dbABC 12 2 rand0 1000000 dparts0 (some 0) false true =
        (Resp.err 500 "Failed to read games", dbABC) :=
  have h := apiGames_fallback_failure_behaviour dbABC 12 2 rand0 1000000 dparts0 0
    (by decide) (by decide) (by decide)
  ⟨by decide, by decide, h.1, h.2⟩

/-- C8: the startup sequence runs the generator once (its observable
outcome and database effect are exactly those of one `generateSnapshot`
call, performed before any scheduling is attempted); with a malformed
cadence expression the scheduling error is logged, no recurring job is
installed, and the process still reaches `app.listen` — while with a valid
expression the job is installed after the same one-time generation. -/
theorem startup_survives_bad_cron (db : Db) (size : Nat) (rand : Nat → Nat)
    (now : Int) (d : DateParts) (failAt : Option Nat) :
    (startup db size rand now d failAt false).cronErrorLogged = true ∧
    (startup db size rand now d failAt false).cronScheduled = false ∧
    (startup db size rand now d failAt false).listening = true ∧
    (startup db size rand now d failAt false).generated =
      (generateSnapshot db size rand now d failAt).1 ∧
    (startup db size rand now d failAt false).dbAfter =
      (generateSnapshot db size rand now d failAt).2 ∧
    (startup db size rand now d failAt true).cronScheduled = true ∧
    (startup db size rand now d failAt true).dbAfter =
      (generateSnapshot db size rand now d failAt).2 := by
  simp [startup, cronSchedule]

/-- C9: when the freshness query is empty, the enabled pool is empty (the
triggered generation is skipped), and the store still holds a row older
than the freshness window and younger than the retention horizon, the
endpoint answers up to batch-size of those stale rows, newest first — not
the empty sequence — because the fallback re-query applies no freshness
filter. -/
theorem apiGames_serves_stale_rows (db : Db) (size : Nat) (ttl : Int)
    (rand : Nat → Nat) (now : Int) (d : DateParts)
    (hfresh : freshQuery db now ttl size = [])
    (hpool : db.pool_games.filter (·.enabled) = [])
    (hstale : ∃ s ∈ db.game_snapshots,
      s.created_at < now - ttl * 3600 ∧ now - retentionSeconds ≤ s.created_at) :
    apiGames db size ttl rand now d none false false =
      (Resp.ok (fallbackQuery db size), db) ∧
    fallbackQuery db size ≠ [] ∧
    (fallbackQuery db size).Pairwise fun a b => b.created_at ≤ a.created_at := by
  have h0 : (freshQuery db now ttl size).length = 0 := by rw [hfresh]; rfl
  have hskip := generateSnapshot_skipped_of_empty db size rand now d none hpool
  refine ⟨by simp [apiGames, h0, hskip], ?_, ?_⟩
  · obtain ⟨s, hsmem, -⟩ := hstale
    intro hnil
    rcases List.take_eq_nil_iff.1 hnil with h1 | h1
    · exact absurd (Nat.max_eq_zero_iff.1 h1).1 one_ne_zero
    · have hlen := (sortDescBy_perm (·.created_at) db.game_snapshots).length_eq
      rw [h1] at hlen
      exact List.ne_nil_of_mem hsmem (List.length_eq_zero.1 hlen.symm)
  · exact List.Pairwise.sublist (List.take_sublist _ _)
      (sortDescBy_pairwise (·.created_at) db.game_snapshots)

/-- Witness for C9: one stale-but-retained snapshot row is served rather
than an empty response. -/
theorem apiGames_serves_stale_rows_witness :
    freshQuery dbStaleRows 1000000 2 12 = [] ∧
      dbStaleRows.pool_games.filter (·.enabled) = [] ∧
      apiGames dbStaleRows 12 2 rand0 1000000 dparts0 none false false =
        (Resp.ok (fallbackQuery dbStaleRows 12), dbStaleRows) ∧
      fallbackQuery dbStaleRows 12 ≠ [] :=
  have h := apiGames_serves_stale_rows dbStaleRows 12 2 rand0 1000000 dparts0
    (by decide) (by decide) (by decide)
  ⟨by decide, by decide, h.1, h.2.1⟩
